import Mathlib

/-!
Verification development for the grasping-benchmarks ROS manager
(`grasping_benchmarks_ros/benchmark_ros_manager.py`).

The Python source is shallowly embedded: Python floats are modelled as exact
rationals (`ℚ`, ideal arithmetic), numpy 4x4 arrays as the 16-field structure
`Mat4`, ROS messages as plain Lean structures, and the external collaborators
(grasp planner, panda feasibility/execution service, shape completion) as
functions supplied in an `Env` record.  Stateful handler code is embedded as
explicit state passing: `user_cmd` maps an environment, a manager state and a
command string to an outcome, a final state, and the lists of requests it sent
to the planner and panda services plus the dump artifacts it wrote.
-/

set_option maxHeartbeats 1000000

/-- Quaternion with components in the source's `[x, y, z, w]` order. -/
structure Quat where
  x : ℚ
  y : ℚ
  z : ℚ
  w : ℚ
  deriving DecidableEq, Repr

/-- A 3-vector (point or translation), float64 components modelled as `ℚ`. -/
structure Vec3 where
  x : ℚ
  y : ℚ
  z : ℚ
  deriving DecidableEq, Repr

/-- A 4-vector, used for homogeneous point coordinates. -/
structure Vec4 where
  x : ℚ
  y : ℚ
  z : ℚ
  w : ℚ
  deriving DecidableEq, Repr

/-- A dense 4x4 matrix of `ℚ` entries (model of a numpy `(4,4)` float64 array),
row-major field names `aij` = row `i`, column `j`. -/
@[ext] structure Mat4 where
  a00 : ℚ
  a01 : ℚ
  a02 : ℚ
  a03 : ℚ
  a10 : ℚ
  a11 : ℚ
  a12 : ℚ
  a13 : ℚ
  a20 : ℚ
  a21 : ℚ
  a22 : ℚ
  a23 : ℚ
  a30 : ℚ
  a31 : ℚ
  a32 : ℚ
  a33 : ℚ
  deriving DecidableEq, Repr

/-- The 4x4 identity matrix (`np.identity(4)` / `np.eye(4)`). -/
def Mat4.id4 : Mat4 :=
  ⟨1, 0, 0, 0,
   0, 1, 0, 0,
   0, 0, 1, 0,
   0, 0, 0, 1⟩

/-- Matrix product (`np.dot` of two 4x4 arrays). -/
def Mat4.mul (A B : Mat4) : Mat4 :=
  ⟨A.a00*B.a00 + A.a01*B.a10 + A.a02*B.a20 + A.a03*B.a30,
   A.a00*B.a01 + A.a01*B.a11 + A.a02*B.a21 + A.a03*B.a31,
   A.a00*B.a02 + A.a01*B.a12 + A.a02*B.a22 + A.a03*B.a32,
   A.a00*B.a03 + A.a01*B.a13 + A.a02*B.a23 + A.a03*B.a33,
   A.a10*B.a00 + A.a11*B.a10 + A.a12*B.a20 + A.a13*B.a30,
   A.a10*B.a01 + A.a11*B.a11 + A.a12*B.a21 + A.a13*B.a31,
   A.a10*B.a02 + A.a11*B.a12 + A.a12*B.a22 + A.a13*B.a32,
   A.a10*B.a03 + A.a11*B.a13 + A.a12*B.a23 + A.a13*B.a33,
   A.a20*B.a00 + A.a21*B.a10 + A.a22*B.a20 + A.a23*B.a30,
   A.a20*B.a01 + A.a21*B.a11 + A.a22*B.a21 + A.a23*B.a31,
   A.a20*B.a02 + A.a21*B.a12 + A.a22*B.a22 + A.a23*B.a32,
   A.a20*B.a03 + A.a21*B.a13 + A.a22*B.a23 + A.a23*B.a33,
   A.a30*B.a00 + A.a31*B.a10 + A.a32*B.a20 + A.a33*B.a30,
   A.a30*B.a01 + A.a31*B.a11 + A.a32*B.a21 + A.a33*B.a31,
   A.a30*B.a02 + A.a31*B.a12 + A.a32*B.a22 + A.a33*B.a32,
   A.a30*B.a03 + A.a31*B.a13 + A.a32*B.a23 + A.a33*B.a33⟩

/-- Matrix-vector product (`np.dot` of a 4x4 array and a length-4 vector). -/
def Mat4.mulVec (A : Mat4) (v : Vec4) : Vec4 :=
  ⟨A.a00*v.x + A.a01*v.y + A.a02*v.z + A.a03*v.w,
   A.a10*v.x + A.a11*v.y + A.a12*v.z + A.a13*v.w,
   A.a20*v.x + A.a21*v.y + A.a22*v.z + A.a23*v.w,
   A.a30*v.x + A.a31*v.y + A.a32*v.z + A.a33*v.w⟩

/-- Scalar multiple of a 4x4 matrix. -/
def Mat4.smul (c : ℚ) (A : Mat4) : Mat4 :=
  ⟨c*A.a00, c*A.a01, c*A.a02, c*A.a03,
   c*A.a10, c*A.a11, c*A.a12, c*A.a13,
   c*A.a20, c*A.a21, c*A.a22, c*A.a23,
   c*A.a30, c*A.a31, c*A.a32, c*A.a33⟩

/-- Determinant of a 3x3 matrix given by its nine entries, row-major. -/
def det3 (a b c d e f g h i : ℚ) : ℚ :=
  a*(e*i - f*h) - b*(d*i - f*g) + c*(d*h - e*g)

/-- Determinant of a 4x4 matrix, cofactor expansion along the first row. -/
def Mat4.det (M : Mat4) : ℚ :=
    M.a00 * det3 M.a11 M.a12 M.a13 M.a21 M.a22 M.a23 M.a31 M.a32 M.a33
  - M.a01 * det3 M.a10 M.a12 M.a13 M.a20 M.a22 M.a23 M.a30 M.a32 M.a33
  + M.a02 * det3 M.a10 M.a11 M.a13 M.a20 M.a21 M.a23 M.a30 M.a31 M.a33
  - M.a03 * det3 M.a10 M.a11 M.a12 M.a20 M.a21 M.a22 M.a30 M.a31 M.a32

/-- Adjugate (transposed cofactor matrix) of a 4x4 matrix: entry `(i, j)` is
`(-1)^(i+j)` times the minor obtained by deleting row `j` and column `i`. -/
def Mat4.adj (M : Mat4) : Mat4 :=
  ⟨  det3 M.a11 M.a12 M.a13 M.a21 M.a22 M.a23 M.a31 M.a32 M.a33,
   - det3 M.a01 M.a02 M.a03 M.a21 M.a22 M.a23 M.a31 M.a32 M.a33,
     det3 M.a01 M.a02 M.a03 M.a11 M.a12 M.a13 M.a31 M.a32 M.a33,
   - det3 M.a01 M.a02 M.a03 M.a11 M.a12 M.a13 M.a21 M.a22 M.a23,
   - det3 M.a10 M.a12 M.a13 M.a20 M.a22 M.a23 M.a30 M.a32 M.a33,
     det3 M.a00 M.a02 M.a03 M.a20 M.a22 M.a23 M.a30 M.a32 M.a33,
   - det3 M.a00 M.a02 M.a03 M.a10 M.a12 M.a13 M.a30 M.a32 M.a33,
     det3 M.a00 M.a02 M.a03 M.a10 M.a12 M.a13 M.a20 M.a22 M.a23,
     det3 M.a10 M.a11 M.a13 M.a20 M.a21 M.a23 M.a30 M.a31 M.a33,
   - det3 M.a00 M.a01 M.a03 M.a20 M.a21 M.a23 M.a30 M.a31 M.a33,
     det3 M.a00 M.a01 M.a03 M.a10 M.a11 M.a13 M.a30 M.a31 M.a33,
   - det3 M.a00 M.a01 M.a03 M.a10 M.a11 M.a13 M.a20 M.a21 M.a23,
   - det3 M.a10 M.a11 M.a12 M.a20 M.a21 M.a22 M.a30 M.a31 M.a32,
     det3 M.a00 M.a01 M.a02 M.a20 M.a21 M.a22 M.a30 M.a31 M.a32,
   - det3 M.a00 M.a01 M.a02 M.a10 M.a11 M.a12 M.a30 M.a31 M.a32,
     det3 M.a00 M.a01 M.a02 M.a10 M.a11 M.a12 M.a20 M.a21 M.a22⟩

/-- Model of `np.linalg.inv` on a 4x4 array: the exact inverse, computed as
`det⁻¹ • adjugate`.  For an invertible argument (the only way the source calls
it) this is the unique two-sided inverse; numpy's finite-precision result is
idealised to the exact one. -/
def npLinalgInv (M : Mat4) : Mat4 :=
  Mat4.smul (M.det)⁻¹ M.adj

theorem Mat4.adj_mul (M : Mat4) : M.adj.mul M = Mat4.smul M.det Mat4.id4 := by
  ext <;> simp only [Mat4.mul, Mat4.adj, Mat4.smul, Mat4.det, Mat4.id4, det3] <;> ring

theorem Mat4.mul_assoc4 (A B C : Mat4) : (A.mul B).mul C = A.mul (B.mul C) := by
  ext <;> simp only [Mat4.mul] <;> ring

theorem Mat4.id4_mul (A : Mat4) : Mat4.id4.mul A = A := by
  ext <;> simp only [Mat4.mul, Mat4.id4] <;> ring

theorem Mat4.mul_id4 (A : Mat4) : A.mul Mat4.id4 = A := by
  ext <;> simp only [Mat4.mul, Mat4.id4] <;> ring

theorem Mat4.smul_mul (c : ℚ) (A B : Mat4) :
    (Mat4.smul c A).mul B = Mat4.smul c (A.mul B) := by
  ext <;> simp only [Mat4.mul, Mat4.smul] <;> ring

theorem Mat4.smul_smul4 (c d : ℚ) (A : Mat4) :
    Mat4.smul c (Mat4.smul d A) = Mat4.smul (c*d) A := by
  ext <;> simp only [Mat4.smul] <;> ring

theorem Mat4.smul_one4 (A : Mat4) : Mat4.smul 1 A = A := by
  ext <;> simp only [Mat4.smul] <;> ring

/-- For a matrix of nonzero determinant, `npLinalgInv` is a left inverse. -/
theorem npLinalgInv_mul (M : Mat4) (h : M.det ≠ 0) :
    (npLinalgInv M).mul M = Mat4.id4 := by
  rw [npLinalgInv, Mat4.smul_mul, Mat4.adj_mul, Mat4.smul_smul4,
    inv_mul_cancel₀ h, Mat4.smul_one4]

/-- Any right inverse of a matrix with nonzero determinant is `npLinalgInv`. -/
theorem npLinalgInv_eq_of_mul_eq (M N : Mat4) (h : M.det ≠ 0)
    (hmn : M.mul N = Mat4.id4) : npLinalgInv M = N := by
  have h1 : (npLinalgInv M).mul (M.mul N) = npLinalgInv M := by
    rw [hmn, Mat4.mul_id4]
  rw [← Mat4.mul_assoc4, npLinalgInv_mul M h, Mat4.id4_mul] at h1
  exact h1.symm

/-- Modelled from the spec: `quaternion_to_matrix` is imported by the manager
from `grasping_benchmarks.base.transformations`, whose source is not part of
this repository snapshot.  Per the spec a `RigidTransform` carries a unit
quaternion (components `[x, y, z, w]`) whose rotation matrix it builds; this is
the standard unit-quaternion rotation matrix.  Returned as the nine row-major
entries packed into rows for insertion into a 4x4 affine matrix. -/
def quaternion_to_matrix (q : Quat) : (ℚ × ℚ × ℚ) × (ℚ × ℚ × ℚ) × (ℚ × ℚ × ℚ) :=
  ((1 - 2*(q.y^2 + q.z^2), 2*(q.x*q.y - q.z*q.w), 2*(q.x*q.z + q.y*q.w)),
   (2*(q.x*q.y + q.z*q.w), 1 - 2*(q.x^2 + q.z^2), 2*(q.y*q.z - q.x*q.w)),
   (2*(q.x*q.z - q.y*q.w), 2*(q.y*q.z + q.x*q.w), 1 - 2*(q.x^2 + q.y^2)))

/-- The 4x4 affine matrix the handler builds from a rotation and a translation
(source lines 187-194 and 345-352): `np.identity(4)` with the `[:3, :3]` block
set to `quaternion_to_matrix` of the quaternion and `[:3, 3]` set to the
translation. -/
def trMatrix (q : Quat) (t : Vec3) : Mat4 :=
  ⟨(quaternion_to_matrix q).1.1, (quaternion_to_matrix q).1.2.1, (quaternion_to_matrix q).1.2.2, t.x,
   (quaternion_to_matrix q).2.1.1, (quaternion_to_matrix q).2.1.2.1, (quaternion_to_matrix q).2.1.2.2, t.y,
   (quaternion_to_matrix q).2.2.1, (quaternion_to_matrix q).2.2.2.1, (quaternion_to_matrix q).2.2.2.2, t.z,
   0, 0, 0, 1⟩

/-- The quaternion is a unit quaternion (the spec's validity invariant for a
`RigidTransform` rotation). -/
def Quat.unit (q : Quat) : Prop := q.x^2 + q.y^2 + q.z^2 + q.w^2 = 1

instance (q : Quat) : Decidable q.unit := by
  unfold Quat.unit; infer_instance

/-- The closed-form rigid inverse of `trMatrix q t`: transposed rotation block
and translation `-Rᵀ t`, used below to identify `npLinalgInv` on rigid
transforms. -/
def rigidInv (q : Quat) (t : Vec3) : Mat4 :=
  ⟨1 - 2*(q.y^2 + q.z^2), 2*(q.x*q.y + q.z*q.w), 2*(q.x*q.z - q.y*q.w),
     -((1 - 2*(q.y^2 + q.z^2))*t.x + 2*(q.x*q.y + q.z*q.w)*t.y + 2*(q.x*q.z - q.y*q.w)*t.z),
   2*(q.x*q.y - q.z*q.w), 1 - 2*(q.x^2 + q.z^2), 2*(q.y*q.z + q.x*q.w),
     -(2*(q.x*q.y - q.z*q.w)*t.x + (1 - 2*(q.x^2 + q.z^2))*t.y + 2*(q.y*q.z + q.x*q.w)*t.z),
   2*(q.x*q.z + q.y*q.w), 2*(q.y*q.z - q.x*q.w), 1 - 2*(q.x^2 + q.y^2),
     -(2*(q.x*q.z + q.y*q.w)*t.x + 2*(q.y*q.z - q.x*q.w)*t.y + (1 - 2*(q.x^2 + q.y^2))*t.z),
   0, 0, 0, 1⟩

theorem trMatrix_mul_rigidInv (q : Quat) (t : Vec3) (hq : q.unit) :
    (trMatrix q t).mul (rigidInv q t) = Mat4.id4 := by
  have hs : q.x^2 + q.y^2 + q.z^2 + q.w^2 = 1 := hq
  ext <;> simp only [trMatrix, rigidInv, quaternion_to_matrix, Mat4.mul, Mat4.id4]
  case a00 => linear_combination (4*q.y^2 + 4*q.z^2) * hs
  case a01 => linear_combination (-4*q.x*q.y) * hs
  case a02 => linear_combination (-4*q.x*q.z) * hs
  case a03 => linear_combination (-(4*q.y^2 + 4*q.z^2)*t.x + 4*q.x*q.y*t.y + 4*q.x*q.z*t.z) * hs
  case a10 => linear_combination (-4*q.x*q.y) * hs
  case a11 => linear_combination (4*q.x^2 + 4*q.z^2) * hs
  case a12 => linear_combination (-4*q.y*q.z) * hs
  case a13 => linear_combination (4*q.x*q.y*t.x - (4*q.x^2 + 4*q.z^2)*t.y + 4*q.y*q.z*t.z) * hs
  case a20 => linear_combination (-4*q.x*q.z) * hs
  case a21 => linear_combination (-4*q.y*q.z) * hs
  case a22 => linear_combination (4*q.x^2 + 4*q.y^2) * hs
  case a23 => linear_combination (4*q.x*q.z*t.x + 4*q.y*q.z*t.y - (4*q.x^2 + 4*q.y^2)*t.z) * hs
  case a30 => ring
  case a31 => ring
  case a32 => ring
  case a33 => ring

theorem rigidInv_mul_trMatrix (q : Quat) (t : Vec3) (hq : q.unit) :
    (rigidInv q t).mul (trMatrix q t) = Mat4.id4 := by
  have hs : q.x^2 + q.y^2 + q.z^2 + q.w^2 = 1 := hq
  ext <;> simp only [trMatrix, rigidInv, quaternion_to_matrix, Mat4.mul, Mat4.id4]
  case a00 => linear_combination (4*q.y^2 + 4*q.z^2) * hs
  case a01 => linear_combination (-4*q.x*q.y) * hs
  case a02 => linear_combination (-4*q.x*q.z) * hs
  case a03 => ring
  case a10 => linear_combination (-4*q.x*q.y) * hs
  case a11 => linear_combination (4*q.x^2 + 4*q.z^2) * hs
  case a12 => linear_combination (-4*q.y*q.z) * hs
  case a13 => ring
  case a20 => linear_combination (-4*q.x*q.z) * hs
  case a21 => linear_combination (-4*q.y*q.z) * hs
  case a22 => linear_combination (4*q.x^2 + 4*q.y^2) * hs
  case a23 => ring
  case a30 => ring
  case a31 => ring
  case a32 => ring
  case a33 => ring

theorem det_trMatrix (q : Quat) (t : Vec3) (hq : q.unit) :
    (trMatrix q t).det = 1 := by
  have hs : q.x^2 + q.y^2 + q.z^2 + q.w^2 = 1 := hq
  simp only [trMatrix, quaternion_to_matrix, Mat4.det, det3]
  linear_combination (4*(q.x^2 + q.y^2 + q.z^2)) * hs

theorem det_rigidInv (q : Quat) (t : Vec3) (hq : q.unit) :
    (rigidInv q t).det = 1 := by
  have hs : q.x^2 + q.y^2 + q.z^2 + q.w^2 = 1 := hq
  simp only [rigidInv, Mat4.det, det3]
  linear_combination (4*(q.x^2 + q.y^2 + q.z^2)) * hs

/-- On a rigid transform, `np.linalg.inv` is the closed-form rigid inverse. -/
theorem npLinalgInv_trMatrix (q : Quat) (t : Vec3) (hq : q.unit) :
    npLinalgInv (trMatrix q t) = rigidInv q t := by
  refine npLinalgInv_eq_of_mul_eq _ _ ?_ (trMatrix_mul_rigidInv q t hq)
  rw [det_trMatrix q t hq]; norm_num

/-- Inverting the rigid inverse recovers the rigid transform. -/
theorem npLinalgInv_rigidInv (q : Quat) (t : Vec3) (hq : q.unit) :
    npLinalgInv (rigidInv q t) = trMatrix q t := by
  refine npLinalgInv_eq_of_mul_eq _ _ ?_ (rigidInv_mul_trMatrix q t hq)
  rw [det_rigidInv q t hq]; norm_num

/-- Homogeneous coordinates of a 3D point (`np.array([x, y, z, 1.0])`). -/
def homVec (p : Vec3) : Vec4 := ⟨p.x, p.y, p.z, 1⟩

/-- Drop the homogeneous coordinate (numpy slice `[:, :-1]` per point). -/
def projVec (v : Vec4) : Vec3 := ⟨v.x, v.y, v.z⟩

/-- Source `transform_pc_to_frame` (lines 488-516): append a ones column to the
n x 3 point array, multiply by `np.linalg.inv(target)`, drop the last column.
The vectorised numpy product is expressed per point. -/
def transform_pc_to_frame (pc : List Vec3) (target : Mat4) : List Vec3 :=
  pc.map (fun p => projVec ((npLinalgInv target).mulVec (homVec p)))

attribute [ext] Vec4

theorem Mat4.mul_mulVec (A B : Mat4) (v : Vec4) :
    (A.mul B).mulVec v = A.mulVec (B.mulVec v) := by
  ext <;> simp only [Mat4.mul, Mat4.mulVec] <;> ring

theorem Mat4.id4_mulVec (v : Vec4) : Mat4.id4.mulVec v = v := by
  ext <;> simp only [Mat4.id4, Mat4.mulVec] <;> ring

/-- The bottom row of a rigid inverse is `[0, 0, 0, 1]`, so it maps homogeneous
points to vectors whose last coordinate is again `1`. -/
theorem rigidInv_mulVec_hom (q : Quat) (t : Vec3) (p : Vec3) :
    (rigidInv q t).mulVec (homVec p) =
      homVec (projVec ((rigidInv q t).mulVec (homVec p))) := by
  ext <;> simp only [rigidInv, Mat4.mulVec, homVec, projVec] <;> ring

/-- Point-level round trip: mapping a point through the inverse of a rigid
transform and then through the inverse of that inverse recovers the point. -/
theorem rigid_point_roundtrip (q : Quat) (t : Vec3) (hq : q.unit) (p : Vec3) :
    projVec ((npLinalgInv (npLinalgInv (trMatrix q t))).mulVec
      (homVec (projVec ((npLinalgInv (trMatrix q t)).mulVec (homVec p))))) = p := by
  rw [npLinalgInv_trMatrix q t hq, npLinalgInv_rigidInv q t hq,
    ← rigidInv_mulVec_hom q t p, ← Mat4.mul_mulVec,
    trMatrix_mul_rigidInv q t hq, Mat4.id4_mulVec]
  rfl

/-- List-level round trip through `transform_pc_to_frame`: transforming into
the frame of a rigid `tr_matrix` and then into the frame of its
`np.linalg.inv` is the identity on the point list. -/
theorem transform_pc_roundtrip (q : Quat) (t : Vec3) (hq : q.unit) (pc : List Vec3) :
    transform_pc_to_frame (transform_pc_to_frame pc (trMatrix q t))
      (npLinalgInv (trMatrix q t)) = pc := by
  simp only [transform_pc_to_frame, List.map_map, Function.comp_def]
  induction pc with
  | nil => rfl
  | cons p ps ih =>
    simp only [List.map_cons, List.cons.injEq]
    exact ⟨rigid_point_roundtrip q t hq p, ih⟩

/-- Every pair drawn from a list zipped with itself has equal components. -/
theorem zip_self_eq {α : Type} (l : List α) (pr : α × α) (h : pr ∈ l.zip l) :
    pr.1 = pr.2 := by
  induction l with
  | nil => cases h
  | cons a as ih =>
    simp only [List.zip_cons_cons, List.mem_cons] at h
    rcases h with h | h
    · subst h; rfl
    · exact ih h

/-- Whitespace characters recognised by Python's argument-less `str.split`:
the characters for which `str.isspace` holds — ASCII whitespace (space, tab,
LF, VT, FF, CR), the file/group/record/unit separators `U+001C`-`U+001F`, the
next-line character `U+0085`, and the Unicode space separators (`U+00A0`,
`U+1680`, `U+2000`-`U+200A`, `U+2028`, `U+2029`, `U+202F`, `U+205F`,
`U+3000`). -/
def pyWs (c : Char) : Bool :=
  c.toNat == 0x20 || c.toNat == 0x09 || c.toNat == 0x0a || c.toNat == 0x0b ||
  c.toNat == 0x0c || c.toNat == 0x0d ||
  decide (0x1c ≤ c.toNat ∧ c.toNat ≤ 0x1f) ||
  c.toNat == 0x85 || c.toNat == 0xa0 || c.toNat == 0x1680 ||
  decide (0x2000 ≤ c.toNat ∧ c.toNat ≤ 0x200a) ||
  c.toNat == 0x2028 || c.toNat == 0x2029 || c.toNat == 0x202f ||
  c.toNat == 0x205f || c.toNat == 0x3000

/-- Helper for `pySplit`: splits a character list on whitespace runs, with the
current (reversed) in-progress token as accumulator. -/
def splitWsAux : List Char → List Char → List (List Char)
  | [], acc => if acc.isEmpty then [] else [acc.reverse]
  | c :: rest, acc =>
    if pyWs c then
      if acc.isEmpty then splitWsAux rest []
      else acc.reverse :: splitWsAux rest []
    else splitWsAux rest (c :: acc)

/-- Model of Python `str.split()` with no separator argument: split on runs of
whitespace, discarding empty tokens. -/
def pySplit (s : String) : List String :=
  (splitWsAux s.data []).map (fun cs => String.mk cs)

/-- `leadsWith needle hay` is true when `needle` is a prefix of `hay`. -/
def leadsWith : List Char → List Char → Bool
  | [], _ => true
  | _ :: _, [] => false
  | a :: as, b :: bs => a = b && leadsWith as bs

/-- `occursIn needle hay` is true when `needle` occurs contiguously inside
`hay`: the model of Python's `in` operator on strings. -/
def occursIn : List Char → List Char → Bool
  | n, [] => n.isEmpty
  | n, h :: hs => leadsWith n (h :: hs) || occursIn n hs

/-- Helper for `digitsToNat`: consume the remainder of a digit run that may
contain single PEP 515 underscores between digits (`1_000` parses, while
`1__0`, `1_` and `_1` do not), accumulating the value. -/
def digitsUndAux : List Char → ℕ → Option ℕ
  | [], acc => some acc
  | ['_'], _ => none
  | '_' :: d :: rest, acc =>
    if d.isDigit then digitsUndAux rest (acc * 10 + (d.toNat - 48)) else none
  | c :: rest, acc =>
    if c.isDigit then digitsUndAux rest (acc * 10 + (c.toNat - 48)) else none

/-- Digit-run parser: `some` of the value when the list is a nonempty run of
ASCII digits with optional single underscores between digits (PEP 515),
`none` otherwise. -/
def digitsToNat : List Char → Option ℕ
  | [] => none
  | c :: rest => if c.isDigit then digitsUndAux rest (c.toNat - 48) else none

/-- Model of Python `int(s)` on a whitespace-free token: an optional sign
followed by an underscore-grouped digit run; `none` models the `ValueError`
raised otherwise.  This is exact for ASCII tokens; Python additionally
accepts non-ASCII Unicode decimal digits, which are outside this model, so
theorems that conclude a raise from a parse failure restrict their argument
to ASCII characters. -/
def parsePyInt (s : String) : Option ℤ :=
  match s.data with
  | '-' :: rest => (digitsToNat rest).map (fun n => -(n : ℤ))
  | '+' :: rest => (digitsToNat rest).map (fun n => (n : ℤ))
  | l => (digitsToNat l).map (fun n => (n : ℤ))

/-- First tokens of the `available_commands_dict` keys, in insertion order
(`help`, `grasp`, `get_candidates [n]`, `abort`; source lines 131-135). -/
def commandTokens : List String := ["help", "grasp", "get_candidates", "abort"]

/-- Source lines 139-142: a request is a valid command when the first token of
some known command key occurs anywhere in the request string (Python's `in`
substring containment). -/
def validCommand (cmd : String) : Bool :=
  commandTokens.any (fun tok => occursIn tok.data cmd.data)

/-- ROS message header: reference-frame identifier and capture timestamp. -/
structure Header where
  frameId : String
  stamp : ℚ
  deriving DecidableEq, Repr

/-- Opaque model of a `sensor_msgs/Image` payload. -/
structure ImageMsg where
  payload : ℕ
  deriving DecidableEq, Repr

/-- Opaque model of a `sensor_msgs/CameraInfo` message (only its header is
inspected by the manager, for the tf lookup). -/
structure CameraInfoMsg where
  header : Header
  payload : ℕ
  deriving DecidableEq, Repr

/-- One point of a `PointCloud2` with fields `(x, y, z, rgb)`.  The manager
reads points with `skip_nans=True`; in the exact-rational model every stored
point is finite, so extraction never drops entries. -/
structure ColoredPoint where
  x : ℚ
  y : ℚ
  z : ℚ
  rgb : ℚ
  deriving DecidableEq, Repr

/-- Model of a `sensor_msgs/PointCloud2`: header, an opaque tag standing for
the `fields` descriptor, and the point list. -/
structure Cloud where
  header : Header
  fieldsTag : ℕ
  points : List ColoredPoint
  deriving DecidableEq, Repr

/-- A `geometry_msgs/Transform`: rotation quaternion and translation. -/
structure TransformMsg where
  rotation : Quat
  translation : Vec3
  deriving DecidableEq, Repr

/-- A `geometry_msgs/TransformStamped`. -/
structure TransformStampedMsg where
  header : Header
  childFrameId : String
  transform : TransformMsg
  deriving DecidableEq, Repr

/-- A `geometry_msgs/PoseStamped` (as carried inside a `BenchmarkGrasp`). -/
structure PoseStampedMsg where
  header : Header
  position : Vec3
  orientation : Quat
  deriving DecidableEq, Repr

/-- A `grasping_benchmarks_ros/BenchmarkGrasp` message: pose, score, width
(the `.data` indirection of the `Float64` fields is flattened away). -/
structure BenchmarkGrasp where
  pose : PoseStampedMsg
  score : ℚ
  width : ℚ
  deriving DecidableEq, Repr

/-- A `panda_ros_common/PandaGrasp` request: grasp pose, width, plan-only
flag (`False` by message default, set `True` only by the feasibility test). -/
structure PandaGraspReq where
  grasp : PoseStampedMsg
  width : ℚ
  planOnly : Bool
  deriving DecidableEq, Repr

/-- Source line 40. -/
def MAX_NUMBER_OF_CANDIDATES : ℤ := 10

/-- The scan loop of `get_best_grasp` (source lines 301-305): start from the
first candidate and replace the running best only on strictly greater score. -/
def get_best_grasp_loop (best : BenchmarkGrasp) : List BenchmarkGrasp → BenchmarkGrasp
  | [] => best
  | g :: rest => get_best_grasp_loop (if g.score > best.score then g else best) rest

/-- Source `get_best_grasp` (lines 288-307).  `none` models the `IndexError`
Python would raise on an empty list (the handler only calls it on a list it
has checked to be non-empty). -/
def get_best_grasp : List BenchmarkGrasp → Option BenchmarkGrasp
  | [] => none
  | g :: rest => some (get_best_grasp_loop g rest)

/-- Source `get_feasible_grasps` (lines 372-393): keep, in order, exactly the
candidates for which the plan-only feasibility query succeeds. -/
def get_feasible_grasps (feasible : BenchmarkGrasp → Bool)
    (grasps : List BenchmarkGrasp) : List BenchmarkGrasp :=
  grasps.filter feasible

/-- The 4x4 affine matrix `dump_grasps` builds for one candidate (source lines
345-352): `np.eye(4)` with the rotation block from `quaternion_to_matrix` of
the pose orientation and the translation column from the pose position — the
same construction as `trMatrix`. -/
def candidate_pose_affine (g : BenchmarkGrasp) : Mat4 :=
  trMatrix g.pose.orientation g.pose.position

/-- One bracketed, comma-separated row of a dumped affine matrix (the body of
the `'[{}, {}, {}, {}]'` format of source lines 356-364, without the row
terminator). -/
def rowString (fmt : ℚ → String) (e0 e1 e2 e3 : ℚ) : String :=
  "[" ++ fmt e0 ++ ", " ++ fmt e1 ++ ", " ++ fmt e2 ++ ", " ++ fmt e3 ++ "]"

/-- The four strings `dump_grasps` writes to the poses file for one candidate:
rows 0-2 are terminated by `,`, the final row by a newline (lines 353-365). -/
def candidateRowWrites (fmt : ℚ → String) (g : BenchmarkGrasp) : List String :=
  [rowString fmt (candidate_pose_affine g).a00 (candidate_pose_affine g).a01
     (candidate_pose_affine g).a02 (candidate_pose_affine g).a03 ++ ",",
   rowString fmt (candidate_pose_affine g).a10 (candidate_pose_affine g).a11
     (candidate_pose_affine g).a12 (candidate_pose_affine g).a13 ++ ",",
   rowString fmt (candidate_pose_affine g).a20 (candidate_pose_affine g).a21
     (candidate_pose_affine g).a22 (candidate_pose_affine g).a23 ++ ",",
   rowString fmt (candidate_pose_affine g).a30 (candidate_pose_affine g).a31
     (candidate_pose_affine g).a32 (candidate_pose_affine g).a33 ++ "\n"]

/-- The files created by one `dump_grasps` call, as the ordered sequences of
strings written to the poses file and to the scores file. -/
structure DumpArtifact where
  posesWrites : List String
  scoresWrites : List String
  deriving DecidableEq, Repr

/-- Source `dump_grasps` (lines 309-370), with the filesystem bookkeeping
(fresh directory search) out of scope: for each candidate in planner order it
writes the four affine rows to the poses file and one `str(score)` line to the
scores file.  `fmt` models Python `str` on a float. -/
def dump_grasps (fmt : ℚ → String) (grasps : List BenchmarkGrasp) : DumpArtifact :=
  ⟨grasps.flatMap (candidateRowWrites fmt),
   grasps.map (fun g => fmt g.score ++ "\n")⟩

/-- The mutable fields of `GraspingBenchmarksManager` (source lines 99-115). -/
structure ManagerState where
  camInfoMsg : Option CameraInfoMsg
  rgbMsg : Option ImageMsg
  depthMsg : Option ImageMsg
  pcMsg : Option Cloud
  backgroundPcMsg : Option Cloud
  cameraPose : TransformStampedMsg
  rootReferenceFrame : String
  useAruco : Bool
  arucoBoardPose : TransformStampedMsg
  arucoReferenceFrame : String
  enableGraspFilter : Bool
  segMsgNewData : Bool
  segMsgData : Option ImageMsg
  newCameraData : Bool
  abort : Bool
  verbose : Bool
  deriving DecidableEq, Repr

/-- A `GraspPlanner` service request as filled in by the handler (aruco fields
are set only when `use_aruco` is configured, and default otherwise). -/
structure PlannerReq where
  colorImage : Option ImageMsg
  depthImage : Option ImageMsg
  cameraInfo : Option CameraInfoMsg
  viewPoint : TransformStampedMsg
  cloud : Cloud
  nOfCandidates : ℤ
  arucoBoard : Option TransformMsg
  graspFilterFlag : Bool
  deriving DecidableEq, Repr

/-- What a `user_cmd` invocation hands back to ROS: `ret b` models
`return Bool(b)`, `retNone` the implicit `return None` at the end of the
handler, `raised` an exception escaping the handler (e.g. the `ValueError` of
`int()` on a malformed argument). -/
inductive Outcome where
  | ret (b : Bool)
  | retNone
  | raised
  deriving DecidableEq, Repr

/-- External collaborators and the concurrent-abort schedule of one handler
invocation.  `plannerReply = none` models a `rospy.ServiceException` from the
planner; `execOk` is whether the non-plan-only panda call returns without
raising.  `abortDuringPlanning` is true when a concurrent `abort` command's
write to `_abort` lands between the handler's clearing of the flag (line 148)
and the single post-planner read (line 261), so the read observes `True`;
`abortAfterCheck` is true when such a write lands after that read (e.g. during
the feasibility loop or selection), in which case the in-flight cycle never
reads the flag again. -/
structure Env where
  plannerReply : Option (List BenchmarkGrasp)
  feasible : BenchmarkGrasp → Bool
  execOk : Bool
  complete : List Vec3 → List Vec3
  floatStr : ℚ → String
  abortDuringPlanning : Bool
  abortAfterCheck : Bool

/-- Result of one `user_cmd` invocation: outcome, final state, and the ordered
requests sent to the planner and panda services plus dump artifacts written. -/
structure CmdOutput where
  outcome : Outcome
  state : ManagerState
  plannerReqs : List PlannerReq
  pandaReqs : List PandaGraspReq
  dumpArtifacts : List DumpArtifact

/-- The `TransformStamped()` fallback the camera callback stores when the tf
lookup fails (source lines 460-463): default message with `rotation.w = 1`. -/
def fallbackCameraPose : TransformStampedMsg :=
  ⟨⟨"", 0⟩, "", ⟨⟨0, 0, 0, 1⟩, ⟨0, 0, 0⟩⟩⟩

/-- Source `_camera_data_callback` (lines 444-475).  `tfLookup` is the result
of `lookup_transform(root_reference_frame, cam_info.header.frame_id, ...)`:
per tf2 semantics a successful lookup returns a `TransformStamped` whose
`header.frame_id` is the target (root) frame and whose `child_frame_id` is the
source (camera) frame; `none` models the caught lookup exception.  The stored
background cloud is `None` exactly when foreground and background messages are
equal (line 450-453). -/
def camera_data_callback (st : ManagerState) (camInfo : CameraInfoMsg)
    (rgb depth : ImageMsg) (pc backgroundPc : Cloud)
    (tfLookup : Option TransformMsg) (arucoLookup : Option TransformMsg) :
    ManagerState :=
  let st1 : ManagerState := { st with
    camInfoMsg := some camInfo
    rgbMsg := some rgb
    depthMsg := some depth
    pcMsg := some pc
    backgroundPcMsg := if pc ≠ backgroundPc then some backgroundPc else none
    newCameraData := true }
  let st2 : ManagerState := { st1 with
    cameraPose := match tfLookup with
      | some tr => ⟨⟨st.rootReferenceFrame, camInfo.header.stamp⟩, camInfo.header.frameId, tr⟩
      | none => fallbackCameraPose }
  if st.useAruco then
    match arucoLookup with
    | some tr =>
      { st2 with
        arucoBoardPose := ⟨⟨st.rootReferenceFrame, 0⟩, st.arucoReferenceFrame, tr⟩
        enableGraspFilter := true }
    | none => { st2 with enableGraspFilter := false }
  else st2

/-- Source lines 195-203: transform each cloud point into the root frame with
`tr_matrix` (homogeneous product), keeping its `rgb` channel. -/
def rootPoints (tr : Mat4) (pts : List ColoredPoint) : List ColoredPoint :=
  pts.map (fun p =>
    let v := tr.mulVec ⟨p.x, p.y, p.z, 1⟩
    ⟨v.x, v.y, v.z, p.rgb⟩)

/-- Source lines 205-216: take the root-frame points back to the camera frame
with `transform_pc_to_frame(..., tr_matrix)`, run shape completion there,
return to the root frame with `transform_pc_to_frame(..., inv(tr_matrix))`,
and reattach the colour of the first input point (`points[0][3]`) to every
completed point. -/
def completedFgPoints (complete : List Vec3 → List Vec3) (tr : Mat4)
    (pts : List ColoredPoint) (c0 : ℚ) : List ColoredPoint :=
  let camFramePc := transform_pc_to_frame
    ((rootPoints tr pts).map (fun p => ⟨p.x, p.y, p.z⟩)) tr
  let completedPc := complete camFramePc
  let completedRoot := transform_pc_to_frame completedPc (npLinalgInv tr)
  completedRoot.map (fun v => ⟨v.x, v.y, v.z, c0⟩)

/-- Source lines 220-232: the background points with their position columns
replaced by `transform_pc_to_frame(..., np.linalg.inv(tr_matrix))` (i.e.
transformed into the root frame) and their colour column kept. -/
def backgroundOutPoints (tr : Mat4) (pts : List ColoredPoint) : List ColoredPoint :=
  List.zipWith (fun v p => ⟨v.x, v.y, v.z, p.rgb⟩)
    (transform_pc_to_frame (pts.map (fun p => ⟨p.x, p.y, p.z⟩)) (npLinalgInv tr)) pts

/-- Source lines 183-238: the outgoing `PointCloud2` sent to the planner —
completed foreground points first, then the background points when a
background cloud is stored; header taken from the captured cloud with its
`frame_id` overwritten by the stored camera pose's `header.frame_id`. -/
def composedCloud (complete : List Vec3 → List Vec3)
    (cameraPose : TransformStampedMsg) (pc : Cloud) (bg : Option Cloud)
    (c0 : ℚ) : Cloud :=
  let tr := trMatrix cameraPose.transform.rotation cameraPose.transform.translation
  let fgPts := completedFgPoints complete tr pc.points c0
  let allPts := fgPts ++ (match bg with
    | none => []
    | some b => backgroundOutPoints tr b.points)
  ⟨⟨cameraPose.header.frameId, pc.header.stamp⟩, pc.fieldsTag, allPts⟩

/-- The stored background cloud exists and has zero points.  In that case the
source raises `IndexError` at line 230: `background_points` is empty, so
`np.asarray(background_points)` has shape `(0,)` and the slice `[:, :3]`
fails — before the planner is called and before anything is dumped. -/
def emptyBackground (o : Option Cloud) : Bool :=
  match o with
  | none => false
  | some bg => bg.points.isEmpty

/-- Source `user_cmd` (lines 120-286), embedded as a function of the external
environment, the manager state at entry, and the command string.  The
busy-poll for camera data (lines 160-166) is modelled by the value of
`new_camera_data` at entry; `pySplit cmd |>.headD ""` stands for
`req.cmd.data.split()[0]`, which cannot raise on a validated command (a
validated string contains a non-whitespace token).  Error paths of the
composition are kept in source order: an empty foreground cloud raises at
line 206 (`np.asarray(points)[:, :3]`), an empty stored background cloud
raises at line 230, both before lines 234-235 run; those lines alias the
stored cloud's `Header` (`header = pc_in.header`) and rewrite its `frame_id`
in place, a state mutation (`stMut`) that precedes the `int()` of line 241
and therefore survives a `ValueError` raised there. -/
def user_cmd (env : Env) (st : ManagerState) (cmd : String) : CmdOutput :=
  if ¬ validCommand cmd then ⟨.ret false, st, [], [], []⟩
  else
    let st1 : ManagerState := { st with abort := false }
    if cmd = "help" then ⟨.ret true, st1, [], [], []⟩
    else if cmd = "grasp" ∨
        ((pySplit cmd).headD "" = "get_candidates" ∧ (pySplit cmd).length = 2) then
      if st1.newCameraData = false then ⟨.ret false, st1, [], [], []⟩
      else
        let st2 : ManagerState := { st1 with newCameraData := false }
        match st2.pcMsg with
        | none => ⟨.raised, st2, [], [], []⟩
        | some pc =>
          match pc.points with
          | [] => ⟨.raised, st2, [], [], []⟩
          | p0 :: _ =>
            if emptyBackground st2.backgroundPcMsg then ⟨.raised, st2, [], [], []⟩
            else
              let cloudOut := composedCloud env.complete st2.cameraPose pc
                st2.backgroundPcMsg p0.rgb
              let stMut : ManagerState := { st2 with
                pcMsg := some { pc with
                  header := ⟨st2.cameraPose.header.frameId, pc.header.stamp⟩ } }
              match (if cmd = "grasp" then some MAX_NUMBER_OF_CANDIDATES
                     else parsePyInt ((pySplit cmd).getD 1 "")) with
              | none => ⟨.raised, stMut, [], [], []⟩
              | some n =>
                let preq : PlannerReq := {
                  colorImage := st2.rgbMsg
                  depthImage := st2.depthMsg
                  cameraInfo := st2.camInfoMsg
                  viewPoint := st2.cameraPose
                  cloud := cloudOut
                  nOfCandidates := n
                  arucoBoard := if st2.useAruco then some st2.arucoBoardPose.transform else none
                  graspFilterFlag := if st2.useAruco then st2.enableGraspFilter else false }
                match env.plannerReply with
                | none => ⟨.ret false, stMut, [preq], [], []⟩
                | some grasps =>
                  let st3 : ManagerState := { stMut with
                    abort := env.abortDuringPlanning || env.abortAfterCheck }
                  if env.abortDuringPlanning then ⟨.ret false, st3, [preq], [], []⟩
                  else if cmd = "grasp" then
                    let feasCalls := grasps.map (fun g => PandaGraspReq.mk g.pose g.width true)
                    match get_feasible_grasps env.feasible grasps with
                    | [] => ⟨.ret false, st3, [preq], feasCalls, []⟩
                    | b :: bs =>
                      let best := get_best_grasp_loop b bs
                      ⟨.ret env.execOk, st3, [preq],
                        feasCalls ++ [PandaGraspReq.mk best.pose best.width false], []⟩
                  else
                    ⟨.ret true, st3, [preq], [], [dump_grasps env.floatStr grasps]⟩
    else if cmd = "abort" then ⟨.ret true, { st1 with abort := true }, [], [], []⟩
    else ⟨.retNone, st1, [], [], []⟩

/-- A concrete environment used to instantiate witnesses. -/
def baseEnv : Env :=
  { plannerReply := some []
    feasible := fun g => decide (g.score > 0)
    execOk := true
    complete := fun l => l
    floatStr := fun _ => "0.0"
    abortDuringPlanning := false
    abortAfterCheck := false }

/-- A concrete captured cloud used to instantiate witnesses. -/
def baseCloud : Cloud := ⟨⟨"camera_frame", 7⟩, 3, [⟨1, 2, 3, 9⟩]⟩

/-- A concrete manager state (camera data already arrived) used to
instantiate witnesses. -/
def baseState : ManagerState :=
  { camInfoMsg := some ⟨⟨"camera_frame", 7⟩, 0⟩
    rgbMsg := some ⟨1⟩
    depthMsg := some ⟨2⟩
    pcMsg := some baseCloud
    backgroundPcMsg := none
    cameraPose := ⟨⟨"panda_link0", 7⟩, "camera_frame", ⟨⟨0, 0, 0, 1⟩, ⟨1, 2, 3⟩⟩⟩
    rootReferenceFrame := "panda_link0"
    useAruco := false
    arucoBoardPose := fallbackCameraPose
    arucoReferenceFrame := "aruco_board"
    enableGraspFilter := false
    segMsgNewData := false
    segMsgData := none
    newCameraData := true
    abort := false
    verbose := false }

/-- C10: command validation is substring containment of a known command word,
and inputs that pass validation but match no handler branch (`get_candidates`
without an argument, a string containing `grasp` that is not exactly `grasp`)
clear the abort flag and fall off the end of `user_cmd`, returning `None`
rather than a boolean result. -/
theorem user_cmd_substring_validation_and_none (env : Env) (st : ManagerState) :
    (∀ s : String, occursIn "grasp".data s.data = true → validCommand s = true) ∧
    validCommand "get_candidates" = true ∧
    validCommand "a grasp please" = true ∧
    (user_cmd env st "get_candidates").outcome = .retNone ∧
    (user_cmd env st "get_candidates").state = { st with abort := false } ∧
    (user_cmd env st "a grasp please").outcome = .retNone ∧
    (user_cmd env st "a grasp please").state = { st with abort := false } := by
  refine ⟨?_, rfl, rfl, rfl, rfl, rfl, rfl⟩
  intro s h
  simp only [validCommand, commandTokens, List.any_cons, List.any_nil, Bool.or_eq_true]
  exact Or.inr (Or.inl h)

/-- C10 witness: the universally quantified validation clause instantiated at
a concrete string that merely contains the word `grasp`. -/
theorem user_cmd_substring_validation_witness :
    occursIn "grasp".data "do not grasp this".data = true ∧
    validCommand "do not grasp this" = true :=
  ⟨by decide,
   (user_cmd_substring_validation_and_none baseEnv baseState).1 "do not grasp this" (by decide)⟩

/-- C8 counterexample: handling `help` in a state whose abort flag is set
does change the orchestrator state — line 148 unconditionally clears `_abort`
before the `help` branch returns. -/
theorem help_state_change_counterexample :
    (user_cmd baseEnv { baseState with abort := true } "help").state ≠
      { baseState with abort := true } := by decide

/-- C8 amended: `help` returns immediately with a success result, invokes no
service and writes no dump, and leaves every orchestrator field unchanged
except the abort flag, which it clears (as every valid command does). -/
theorem help_returns_success_clearing_only_abort (env : Env) (st : ManagerState) :
    (user_cmd env st "help").outcome = .ret true ∧
    (user_cmd env st "help").state = { st with abort := false } ∧
    (user_cmd env st "help").plannerReqs = [] ∧
    (user_cmd env st "help").pandaReqs = [] ∧
    (user_cmd env st "help").dumpArtifacts = [] :=
  ⟨rfl, rfl, rfl, rfl, rfl⟩

/-- C4 counterexample: with camera data available and the abort flag set, the
command `get_candidates abc` is accepted by validation, mutates the state
(clears the abort flag, consumes the snapshot flag, and rewrites the stored
cloud's header frame id in place), and then the `int("abc")` of source line
241 raises an uncaught `ValueError` — there is no synchronous failure result
and the exception escapes the handler. -/
theorem get_candidates_malformed_counterexample :
    (user_cmd baseEnv { baseState with abort := true } "get_candidates abc").outcome
        = .raised ∧
    (user_cmd baseEnv { baseState with abort := true } "get_candidates abc").state
        ≠ { baseState with abort := true } := by
  exact ⟨by decide, by decide⟩

/-- C4 amended: for every `get_candidates <arg>` command whose ASCII argument
does not parse as a Python integer (optional sign, digits with PEP 515
underscore grouping; arguments such as `-3` parse fine and are not rejected
despite not being positive), the handler — once camera data is available, the
foreground cloud is non-empty and the stored background cloud (if any) is
non-empty — clears the abort flag and the snapshot flag, rewrites the stored
cloud's header frame id in place (lines 234-235, aliased `Header` object), and
then the `int()` of line 241 raises an uncaught `ValueError`: the exception
escapes after state was already mutated, no planner or panda request is sent
and nothing is dumped.  The ASCII restriction scopes the theorem to arguments
on which `parsePyInt` coincides with Python `int()` (which additionally
accepts non-ASCII Unicode decimal digits). -/
theorem get_candidates_malformed_raises (env : Env) (st : ManagerState)
    (pc : Cloud) (p0 : ColoredPoint) (ps : List ColoredPoint) (s cmd : String)
    (hv : validCommand cmd = true)
    (hsplit : pySplit cmd = ["get_candidates", s])
    (_hascii : ∀ c ∈ s.data, c.toNat < 128)
    (hparse : parsePyInt s = none)
    (hcam : st.newCameraData = true)
    (hpc : st.pcMsg = some pc)
    (hpts : pc.points = p0 :: ps)
    (hbg : emptyBackground st.backgroundPcMsg = false) :
    (user_cmd env st cmd).outcome = .raised ∧
    (user_cmd env st cmd).state = { st with
      pcMsg := some ⟨⟨st.cameraPose.header.frameId, pc.header.stamp⟩,
        pc.fieldsTag, pc.points⟩,
      newCameraData := false, abort := false } ∧
    (user_cmd env st cmd).plannerReqs = [] ∧
    (user_cmd env st cmd).pandaReqs = [] ∧
    (user_cmd env st cmd).dumpArtifacts = [] := by
  have hg : cmd ≠ "grasp" := by
    intro e
    rw [e, show pySplit "grasp" = ["grasp"] by decide] at hsplit
    injection hsplit with h1 h2
    exact absurd h1 (by decide)
  have hh : cmd ≠ "help" := by
    intro e
    rw [e, show pySplit "help" = ["help"] by decide] at hsplit
    injection hsplit with h1 h2
    exact absurd h1 (by decide)
  have hbr : cmd = "grasp" ∨
      ((pySplit cmd).headD "" = "get_candidates" ∧ (pySplit cmd).length = 2) := by
    right; rw [hsplit]; exact ⟨rfl, rfl⟩
  simp only [user_cmd, hv, hh, hg, hbr, hcam, hpc, hpts, hbg, hsplit, hparse,
    List.getD_cons_succ, List.getD_cons_zero, if_true, if_false, ite_true,
    ite_false, Bool.true_eq_false, not_true, not_false_iff, if_neg, if_pos]
  simp [hg, hh]

/-- C4 witness: the amended theorem applied at `get_candidates abc`. -/
theorem get_candidates_malformed_raises_witness :
    validCommand "get_candidates abc" = true ∧
    pySplit "get_candidates abc" = ["get_candidates", "abc"] ∧
    (∀ c ∈ ("abc" : String).data, c.toNat < 128) ∧
    parsePyInt "abc" = none ∧
    baseState.newCameraData = true ∧
    baseState.pcMsg = some baseCloud ∧
    baseCloud.points = [⟨1, 2, 3, 9⟩] ∧
    emptyBackground baseState.backgroundPcMsg = false ∧
    (user_cmd baseEnv baseState "get_candidates abc").outcome = .raised :=
  ⟨by decide, by decide, by decide, by decide, by decide, by decide, by decide,
   by decide,
   (get_candidates_malformed_raises baseEnv baseState baseCloud ⟨1, 2, 3, 9⟩ []
     "abc" "get_candidates abc" (by decide) (by decide) (by decide) (by decide)
     (by decide) (by decide) (by decide) (by decide)).1⟩

/-- C2: when the planner returns candidates for a `grasp` command — the cycle
having reached the planner: camera data available, non-empty foreground cloud,
stored background cloud (if any) non-empty — and every candidate fails the
feasibility test, the command returns `Bool(False)` and every panda request
sent was a plan-only (feasibility) query — the execution service is never
invoked — and nothing is dumped. -/
theorem grasp_all_infeasible_fails_without_execution (env : Env)
    (st : ManagerState) (pc : Cloud) (p0 : ColoredPoint) (ps : List ColoredPoint)
    (grasps : List BenchmarkGrasp)
    (hcam : st.newCameraData = true)
    (hpc : st.pcMsg = some pc)
    (hpts : pc.points = p0 :: ps)
    (hbg : emptyBackground st.backgroundPcMsg = false)
    (hreply : env.plannerReply = some grasps)
    (hab : env.abortDuringPlanning = false)
    (hne : grasps ≠ [])
    (hinf : get_feasible_grasps env.feasible grasps = []) :
    (user_cmd env st "grasp").outcome = .ret false ∧
    (∀ r ∈ (user_cmd env st "grasp").pandaReqs, r.planOnly = true) ∧
    (user_cmd env st "grasp").dumpArtifacts = [] := by
  have hvg : validCommand "grasp" = true := by decide
  refine ⟨?_, ?_, ?_⟩
  · simp [user_cmd, hvg, hcam, hpc, hpts, hbg, hreply, hab, hinf]
  · intro r hr
    simp only [user_cmd, hvg, hcam, hpc, hpts, hbg, hreply, hab, hinf] at hr
    simp [List.mem_map] at hr
    obtain ⟨g, hg, hre⟩ := hr
    simp [← hre]
  · simp [user_cmd, hvg, hcam, hpc, hpts, hbg, hreply, hab, hinf]

/-- Three infeasible candidates (negative scores, while `baseEnv.feasible`
requires a positive score), matching the spec scenario for C2. -/
def infeasibleGrasps : List BenchmarkGrasp :=
  [⟨⟨⟨"r", 0⟩, ⟨0, 0, 0⟩, ⟨0, 0, 0, 1⟩⟩, -1, 2⟩,
   ⟨⟨⟨"r", 0⟩, ⟨1, 0, 0⟩, ⟨0, 0, 0, 1⟩⟩, -2, 2⟩,
   ⟨⟨⟨"r", 0⟩, ⟨2, 0, 0⟩, ⟨0, 0, 0, 1⟩⟩, -3, 2⟩]

/-- Environment whose planner replies with the three infeasible candidates. -/
def infeasibleEnv : Env := { baseEnv with plannerReply := some infeasibleGrasps }

/-- C2 witness: three candidates (the spec scenario), none feasible. -/
theorem grasp_all_infeasible_witness :
    baseState.newCameraData = true ∧
    baseState.pcMsg = some baseCloud ∧
    baseCloud.points = [⟨1, 2, 3, 9⟩] ∧
    emptyBackground baseState.backgroundPcMsg = false ∧
    infeasibleEnv.plannerReply = some infeasibleGrasps ∧
    infeasibleEnv.abortDuringPlanning = false ∧
    infeasibleGrasps ≠ [] ∧
    get_feasible_grasps infeasibleEnv.feasible infeasibleGrasps = [] ∧
    (user_cmd infeasibleEnv baseState "grasp").outcome = .ret false := by
  refine ⟨by decide, by decide, by decide, by decide, by decide, by decide,
    by decide, by decide, ?_⟩
  exact (grasp_all_infeasible_fails_without_execution infeasibleEnv baseState
    baseCloud ⟨1, 2, 3, 9⟩ [] infeasibleGrasps (by decide) (by decide) (by decide)
    (by decide) (by decide) (by decide) (by decide) (by decide)).1

/-- C3 counterexample: a concurrent `abort` whose write lands after the
planner has responded but before selection completes — here immediately after
the single `_abort` read of line 261, i.e. while the feasibility/selection
phase is still ahead — does not stop the cycle: the final state records the
abort flag as set, yet exactly one non-plan-only (execution) request is sent
and the cycle reports success. -/
theorem abort_before_selection_still_executes_counterexample :
    (user_cmd
      { baseEnv with
        plannerReply := some [⟨⟨⟨"r", 0⟩, ⟨0, 0, 0⟩, ⟨0, 0, 0, 1⟩⟩, 1, 2⟩]
        abortAfterCheck := true }
      baseState "grasp").state.abort = true ∧
    (user_cmd
      { baseEnv with
        plannerReply := some [⟨⟨⟨"r", 0⟩, ⟨0, 0, 0⟩, ⟨0, 0, 0, 1⟩⟩, 1, 2⟩]
        abortAfterCheck := true }
      baseState "grasp").pandaReqs.countP (fun r => !r.planOnly) = 1 ∧
    (user_cmd
      { baseEnv with
        plannerReply := some [⟨⟨⟨"r", 0⟩, ⟨0, 0, 0⟩, ⟨0, 0, 0, 1⟩⟩, 1, 2⟩]
        abortAfterCheck := true }
      baseState "grasp").outcome = .ret true := by
  refine ⟨by decide, by decide, by decide⟩

/-- C3 amended: when the abort write is observed by the cycle's single
post-planner check (it landed between the flag clearing at command start and
the read at line 261), any in-flight `grasp`/`get_candidates` cycle that
reached the planner returns `Bool(False)`, sends no panda request at all, and
dumps nothing — the received candidates are discarded.  An abort landing after
that read is never seen by the in-flight cycle (see the counterexample). -/
theorem abort_observed_at_check_discards_cycle (env : Env) (st : ManagerState)
    (cmd : String) (hab : env.abortDuringPlanning = true) :
    (user_cmd env st cmd).plannerReqs ≠ [] →
    (user_cmd env st cmd).outcome = .ret false ∧
    (user_cmd env st cmd).pandaReqs = [] ∧
    (user_cmd env st cmd).dumpArtifacts = [] := by
  simp only [user_cmd, hab]
  repeat' split
  all_goals simp_all

/-- C3 witness: the amended theorem applied to a concrete aborted cycle. -/
theorem abort_observed_at_check_discards_cycle_witness :
    ({ baseEnv with
        plannerReply := some [⟨⟨⟨"r", 0⟩, ⟨0, 0, 0⟩, ⟨0, 0, 0, 1⟩⟩, 1, 2⟩]
        abortDuringPlanning := true } : Env).abortDuringPlanning = true ∧
    (user_cmd
      { baseEnv with
        plannerReply := some [⟨⟨⟨"r", 0⟩, ⟨0, 0, 0⟩, ⟨0, 0, 0, 1⟩⟩, 1, 2⟩]
        abortDuringPlanning := true }
      baseState "grasp").plannerReqs ≠ [] ∧
    (user_cmd
      { baseEnv with
        plannerReply := some [⟨⟨⟨"r", 0⟩, ⟨0, 0, 0⟩, ⟨0, 0, 0, 1⟩⟩, 1, 2⟩]
        abortDuringPlanning := true }
      baseState "grasp").pandaReqs = [] := by
  refine ⟨rfl, by decide, ?_⟩
  exact ((abort_observed_at_check_discards_cycle _ baseState "grasp" rfl)
    (by decide)).2.1

/-- Characterisation of the strict-greater scan: the result splits the scanned
list into a left part of strictly smaller scores, the result itself, and a
right part of scores less than or equal — i.e. the scan returns the first
element attaining the maximal score. -/
theorem get_best_grasp_loop_spec (gs : List BenchmarkGrasp) (b : BenchmarkGrasp) :
    ∃ l r, b :: gs = l ++ get_best_grasp_loop b gs :: r ∧
      (∀ g ∈ l, g.score < (get_best_grasp_loop b gs).score) ∧
      (∀ g ∈ r, g.score ≤ (get_best_grasp_loop b gs).score) := by
  induction gs generalizing b with
  | nil => exact ⟨[], [], rfl, by simp, by simp⟩
  | cons h t ih =>
    by_cases hc : h.score > b.score
    · have hloop : get_best_grasp_loop b (h :: t) = get_best_grasp_loop h t := by
        simp [get_best_grasp_loop, hc]
      obtain ⟨l, r, heq, hl, hr⟩ := ih h
      rw [hloop]
      cases l with
      | nil =>
        injection heq with h1 h2
        refine ⟨[b], r, ?_, ?_, hr⟩
        · rw [List.singleton_append, ← h1, h2]
        · intro g hg
          simp only [List.mem_singleton] at hg
          subst hg
          rw [← h1]; exact hc
      | cons a l' =>
        injection heq with h1 h2
        refine ⟨b :: a :: l', r, ?_, ?_, hr⟩
        · exact congrArg (b :: ·) (congrArg₂ (· :: ·) h1 h2)
        · intro g hg
          rcases List.mem_cons.mp hg with hg | hg
          · subst hg
            have ha : a.score < (get_best_grasp_loop h t).score :=
              hl a (List.mem_cons_self a l')
            calc g.score < h.score := hc
              _ = a.score := by rw [h1]
              _ < _ := ha
          · exact hl g hg
    · have hloop : get_best_grasp_loop b (h :: t) = get_best_grasp_loop b t := by
        simp [get_best_grasp_loop, hc]
      obtain ⟨l, r, heq, hl, hr⟩ := ih b
      rw [hloop]
      push_neg at hc
      cases l with
      | nil =>
        injection heq with h1 h2
        refine ⟨[], h :: t, ?_, by simp, ?_⟩
        · rw [List.nil_append, ← h1]
        · intro g hg
          rcases List.mem_cons.mp hg with hg | hg
          · subst hg; rw [← h1]; exact hc
          · rw [← h2] at hr; exact hr g hg
      | cons a l' =>
        injection heq with h1 h2
        have hb : b.score < (get_best_grasp_loop b t).score := by
          have ha := hl a (List.mem_cons_self a l')
          rw [← h1] at ha; exact ha
        refine ⟨b :: h :: l', r, ?_, ?_, hr⟩
        · exact congrArg (fun z => b :: h :: z) h2
        · intro g hg
          rcases List.mem_cons.mp hg with hg | hg
          · subst hg; exact hb
          · rcases List.mem_cons.mp hg with hg | hg
            · subst hg; exact lt_of_le_of_lt hc hb
            · exact hl g (by simp [hg])

/-- Feasibility queries are recorded as plan-only requests, so filtering the
panda trace for non-plan-only requests drops all of them. -/
theorem filter_exec_of_feasCalls (grasps : List BenchmarkGrasp) (rest : List PandaGraspReq) :
    ((grasps.map (fun g => PandaGraspReq.mk g.pose g.width true)) ++ rest).filter
      (fun r => !r.planOnly) = rest.filter (fun r => !r.planOnly) := by
  induction grasps with
  | nil => rfl
  | cons g gs ih => simpa [List.filter] using ih

/-- C1: for a `grasp` command that reaches selection (camera data available,
non-empty foreground cloud, stored background cloud — if any — non-empty,
planner replied, no abort observed, and at least one feasible candidate), the
single non-plan-only (execution) request carries the pose and width of a
candidate that is in the feasibility-filtered list, has a score greater than
or equal to every feasible candidate's, and is preceded in the filtered list
(which preserves the planner-returned order) only by candidates of strictly
smaller score — the first-seen candidate among maximal ones. -/
theorem grasp_executes_best_feasible (env : Env) (st : ManagerState)
    (pc : Cloud) (p0 : ColoredPoint) (ps : List ColoredPoint)
    (grasps : List BenchmarkGrasp) (b : BenchmarkGrasp) (bs : List BenchmarkGrasp)
    (hcam : st.newCameraData = true)
    (hpc : st.pcMsg = some pc)
    (hpts : pc.points = p0 :: ps)
    (hbg : emptyBackground st.backgroundPcMsg = false)
    (hreply : env.plannerReply = some grasps)
    (hab : env.abortDuringPlanning = false)
    (hfe : get_feasible_grasps env.feasible grasps = b :: bs) :
    ∃ best l r,
      (user_cmd env st "grasp").pandaReqs.filter (fun rq => !rq.planOnly) =
        [PandaGraspReq.mk best.pose best.width false] ∧
      get_feasible_grasps env.feasible grasps = l ++ best :: r ∧
      (∀ g ∈ l, g.score < best.score) ∧
      (∀ g ∈ get_feasible_grasps env.feasible grasps, g.score ≤ best.score) := by
  have hvg : validCommand "grasp" = true := by decide
  obtain ⟨l, r, heq, hl, hr⟩ := get_best_grasp_loop_spec bs b
  refine ⟨get_best_grasp_loop b bs, l, r, ?_, ?_, hl, ?_⟩
  · simp only [user_cmd, hvg, hcam, hpc, hpts, hbg, hreply, hab, hfe]
    simp [filter_exec_of_feasCalls, List.filter]
  · rw [hfe]; exact heq
  · intro g hg
    rw [hfe, heq] at hg
    rcases List.mem_append.mp hg with hg | hg
    · exact le_of_lt (hl g hg)
    · rcases List.mem_cons.mp hg with hg | hg
      · subst hg; exact le_refl _
      · exact hr g hg

/-- The spec scenario for feasibility selection: candidates with scores in
the proportion `[0.2, 0.9, 0.5]` (scaled to the integers `2, 9, -5`, the last
negated so that it fails `baseEnv.feasible` while the first two pass). -/
def selectionGrasps : List BenchmarkGrasp :=
  [⟨⟨⟨"r", 0⟩, ⟨0, 0, 0⟩, ⟨0, 0, 0, 1⟩⟩, 2, 2⟩,
   ⟨⟨⟨"r", 0⟩, ⟨1, 0, 0⟩, ⟨0, 0, 0, 1⟩⟩, 9, 2⟩,
   ⟨⟨⟨"r", 0⟩, ⟨2, 0, 0⟩, ⟨0, 0, 0, 1⟩⟩, -5, 2⟩]

/-- Environment whose planner replies with the selection scenario. -/
def selectionEnv : Env := { baseEnv with plannerReply := some selectionGrasps }

/-- C1 witness: the selection theorem instantiated on the spec scenario. -/
theorem grasp_executes_best_feasible_witness :
    baseState.newCameraData = true ∧
    baseState.pcMsg = some baseCloud ∧
    baseCloud.points = [⟨1, 2, 3, 9⟩] ∧
    emptyBackground baseState.backgroundPcMsg = false ∧
    selectionEnv.plannerReply = some selectionGrasps ∧
    selectionEnv.abortDuringPlanning = false ∧
    get_feasible_grasps selectionEnv.feasible selectionGrasps =
      ⟨⟨⟨"r", 0⟩, ⟨0, 0, 0⟩, ⟨0, 0, 0, 1⟩⟩, 2, 2⟩ ::
        [⟨⟨⟨"r", 0⟩, ⟨1, 0, 0⟩, ⟨0, 0, 0, 1⟩⟩, 9, 2⟩] ∧
    (∃ best l r,
      (user_cmd selectionEnv baseState "grasp").pandaReqs.filter
          (fun rq => !rq.planOnly) =
        [PandaGraspReq.mk best.pose best.width false] ∧
      get_feasible_grasps selectionEnv.feasible selectionGrasps = l ++ best :: r ∧
      (∀ g ∈ l, g.score < best.score) ∧
      (∀ g ∈ get_feasible_grasps selectionEnv.feasible selectionGrasps,
        g.score ≤ best.score)) := by
  refine ⟨by decide, by decide, by decide, by decide, by decide, by decide,
    by decide, ?_⟩
  exact grasp_executes_best_feasible selectionEnv baseState baseCloud ⟨1, 2, 3, 9⟩
    [] selectionGrasps ⟨⟨⟨"r", 0⟩, ⟨0, 0, 0⟩, ⟨0, 0, 0, 1⟩⟩, 2, 2⟩
    [⟨⟨⟨"r", 0⟩, ⟨1, 0, 0⟩, ⟨0, 0, 0, 1⟩⟩, 9, 2⟩]
    (by decide) (by decide) (by decide) (by decide) (by decide) (by decide)
    (by decide)

/-- Number of newline characters in a string (the line count of a text file
whose every line is newline-terminated). -/
def countNl (s : String) : ℕ := s.data.count '\n'

theorem countNl_append (a b : String) : countNl (a ++ b) = countNl a + countNl b := by
  simp [countNl, String.data_append, List.count_append]

theorem foldl_append_data (L : List String) (init : String) :
    (L.foldl (· ++ ·) init).data = init.data ++ (L.map String.data).flatten := by
  induction L generalizing init with
  | nil => simp
  | cons a as ih => simp [List.foldl, ih, String.data_append]

theorem join_cons_str (a : String) (as : List String) :
    String.join (a :: as) = a ++ String.join as := by
  apply String.ext
  simp [String.join, List.foldl, foldl_append_data, String.data_append]

theorem countNl_join (L : List String) :
    countNl (String.join L) = (L.map countNl).sum := by
  induction L with
  | nil => rfl
  | cons a as ih => simp [join_cons_str, countNl_append, ih]

theorem str_nil_append (s : String) : "" ++ s = s := by
  apply String.ext
  simp [String.data_append]

theorem str_append_assoc (a b c : String) : a ++ b ++ c = a ++ (b ++ c) := by
  apply String.ext
  simp [String.data_append]

theorem join_append_str (a b : List String) :
    String.join (a ++ b) = String.join a ++ String.join b := by
  induction a with
  | nil => simp [str_nil_append]; rfl
  | cons x xs ih => simp [join_cons_str, ih, str_append_assoc]

/-- Joining the flat sequence of row writes equals joining one block per
candidate, in the same (planner-returned) order. -/
theorem join_flatMap_rows (fmt : ℚ → String) (grasps : List BenchmarkGrasp) :
    String.join (grasps.flatMap (candidateRowWrites fmt)) =
      String.join (grasps.map (fun g => String.join (candidateRowWrites fmt g))) := by
  induction grasps with
  | nil => rfl
  | cons g gs ih => simp [List.flatMap_cons, join_append_str, join_cons_str, ih]

theorem countNl_rowString (fmt : ℚ → String)
    (hfmt : ∀ x : ℚ, '\n' ∉ (fmt x).data) (e0 e1 e2 e3 : ℚ) :
    countNl (rowString fmt e0 e1 e2 e3) = 0 := by
  have h0 : ∀ x : ℚ, (fmt x).data.count '\n' = 0 := by
    intro x
    exact List.count_eq_zero.mpr (hfmt x)
  simp [rowString, countNl, String.data_append, List.count_append, h0]

/-- Each candidate's poses-file block holds exactly one newline (the
terminator of its fourth row). -/
theorem countNl_candidateBlock (fmt : ℚ → String)
    (hfmt : ∀ x : ℚ, '\n' ∉ (fmt x).data) (g : BenchmarkGrasp) :
    countNl (String.join (candidateRowWrites fmt g)) = 1 := by
  have hrow := countNl_rowString fmt hfmt
  simp [candidateRowWrites, countNl_join, countNl_append, hrow]
  decide

theorem sum_map_one {α : Type} (l : List α) :
    (l.map (fun _ => (1 : ℕ))).sum = l.length := by
  induction l with
  | nil => rfl
  | cons a as ih => simp [ih, Nat.add_comm]

theorem length_flatMap_rows (fmt : ℚ → String) (grasps : List BenchmarkGrasp) :
    (grasps.flatMap (candidateRowWrites fmt)).length = 4 * grasps.length := by
  induction grasps with
  | nil => rfl
  | cons g gs ih =>
    simp [List.flatMap_cons, candidateRowWrites, ih]
    ring

/-- C7: a `get_candidates` run that reaches the dump (camera data available,
non-empty foreground cloud, stored background cloud — if any — non-empty)
whose planner reply holds `k` candidates produces exactly one dump artifact;
its poses file is the concatenation of one four-row block per candidate (4·k
row writes, k trailing newlines, blocks in planner order) and its scores file
holds exactly the k lines `str(score)` plus newline, index-aligned with the
blocks because both are generated from the same candidate list in the same
order. -/
theorem get_candidates_dump_structure (env : Env) (st : ManagerState)
    (pc : Cloud) (p0 : ColoredPoint) (ps : List ColoredPoint) (s cmd : String)
    (n : ℤ) (grasps : List BenchmarkGrasp)
    (hv : validCommand cmd = true)
    (hsplit : pySplit cmd = ["get_candidates", s])
    (hparse : parsePyInt s = some n)
    (hcam : st.newCameraData = true)
    (hpc : st.pcMsg = some pc)
    (hpts : pc.points = p0 :: ps)
    (hbg : emptyBackground st.backgroundPcMsg = false)
    (hreply : env.plannerReply = some grasps)
    (hab : env.abortDuringPlanning = false)
    (hfmt : ∀ x : ℚ, '\n' ∉ (env.floatStr x).data) :
    (user_cmd env st cmd).dumpArtifacts = [dump_grasps env.floatStr grasps] ∧
    (dump_grasps env.floatStr grasps).posesWrites.length = 4 * grasps.length ∧
    (dump_grasps env.floatStr grasps).scoresWrites.length = grasps.length ∧
    countNl (String.join (dump_grasps env.floatStr grasps).posesWrites) =
      grasps.length ∧
    countNl (String.join (dump_grasps env.floatStr grasps).scoresWrites) =
      grasps.length ∧
    String.join (dump_grasps env.floatStr grasps).posesWrites =
      String.join (grasps.map (fun g => String.join (candidateRowWrites env.floatStr g))) ∧
    (dump_grasps env.floatStr grasps).scoresWrites =
      grasps.map (fun g => env.floatStr g.score ++ "\n") := by
  have hg : cmd ≠ "grasp" := by
    intro e
    rw [e, show pySplit "grasp" = ["grasp"] by decide] at hsplit
    injection hsplit with h1 h2
    exact absurd h1 (by decide)
  have hh : cmd ≠ "help" := by
    intro e
    rw [e, show pySplit "help" = ["help"] by decide] at hsplit
    injection hsplit with h1 h2
    exact absurd h1 (by decide)
  have hbr : cmd = "grasp" ∨
      ((pySplit cmd).headD "" = "get_candidates" ∧ (pySplit cmd).length = 2) := by
    right; rw [hsplit]; exact ⟨rfl, rfl⟩
  refine ⟨?_, ?_, ?_, ?_, ?_, ?_, rfl⟩
  · simp only [user_cmd, hv, hh, hg, hbr, hcam, hpc, hpts, hbg, hsplit, hparse,
      hreply, hab, List.getD_cons_succ, List.getD_cons_zero]
    simp [hg, hh]
  · exact length_flatMap_rows env.floatStr grasps
  · simp [dump_grasps]
  · rw [show (dump_grasps env.floatStr grasps).posesWrites =
        grasps.flatMap (candidateRowWrites env.floatStr) from rfl,
      join_flatMap_rows, countNl_join, List.map_map]
    have : (fun g => countNl (String.join (candidateRowWrites env.floatStr g))) =
        (fun _ : BenchmarkGrasp => (1 : ℕ)) := by
      funext g
      exact countNl_candidateBlock env.floatStr hfmt g
    rw [Function.comp_def]
    simp only [this]
    exact sum_map_one grasps
  · rw [show (dump_grasps env.floatStr grasps).scoresWrites =
        grasps.map (fun g => env.floatStr g.score ++ "\n") from rfl,
      countNl_join, List.map_map]
    have : (fun g : BenchmarkGrasp => countNl (env.floatStr g.score ++ "\n")) =
        (fun _ : BenchmarkGrasp => (1 : ℕ)) := by
      funext g
      have h0 : (env.floatStr g.score).data.count '\n' = 0 :=
        List.count_eq_zero.mpr (hfmt g.score)
      simp [countNl_append, countNl, h0]
    rw [Function.comp_def]
    simp only [this]
    exact sum_map_one grasps
  · exact join_flatMap_rows env.floatStr grasps

/-- C7 witness: `get_candidates 3` against a planner replying with three
candidates, instantiating the dump-structure theorem. -/
theorem get_candidates_dump_structure_witness :
    validCommand "get_candidates 3" = true ∧
    pySplit "get_candidates 3" = ["get_candidates", "3"] ∧
    parsePyInt "3" = some 3 ∧
    infeasibleEnv.plannerReply = some infeasibleGrasps ∧
    emptyBackground baseState.backgroundPcMsg = false ∧
    (user_cmd infeasibleEnv baseState "get_candidates 3").dumpArtifacts =
      [dump_grasps infeasibleEnv.floatStr infeasibleGrasps] ∧
    (dump_grasps infeasibleEnv.floatStr infeasibleGrasps).posesWrites.length =
      4 * infeasibleGrasps.length := by
  have h := get_candidates_dump_structure infeasibleEnv baseState baseCloud
    ⟨1, 2, 3, 9⟩ [] "3" "get_candidates 3" 3 infeasibleGrasps (by decide)
    (by decide) (by decide) (by decide) (by decide) (by decide) (by decide)
    (by decide) (by decide) (fun x => by show '\n' ∉ ("0.0" : String).data; decide)
  exact ⟨by decide, by decide, by decide, by decide, by decide, h.1, h.2.1⟩

/-- C9: over the exact-rational model of float arithmetic, transforming a
point cloud into the frame of the rigid `tr_matrix` (built from a unit
quaternion and a translation) with `transform_pc_to_frame` and transforming
the result back with `np.linalg.inv(tr_matrix)` recovers every point exactly —
in particular every coordinate agrees within the spec's `1e-6` tolerance. -/
theorem transform_roundtrip_within_tolerance (q : Quat) (t : Vec3)
    (pc : List Vec3) (hq : q.unit) :
    transform_pc_to_frame (transform_pc_to_frame pc (trMatrix q t))
      (npLinalgInv (trMatrix q t)) = pc ∧
    ∀ pr ∈ (transform_pc_to_frame (transform_pc_to_frame pc (trMatrix q t))
        (npLinalgInv (trMatrix q t))).zip pc,
      |pr.1.x - pr.2.x| ≤ 1/1000000 ∧ |pr.1.y - pr.2.y| ≤ 1/1000000 ∧
      |pr.1.z - pr.2.z| ≤ 1/1000000 := by
  have h := transform_pc_roundtrip q t hq pc
  refine ⟨h, ?_⟩
  intro pr hpr
  rw [h] at hpr
  have he := zip_self_eq pc pr hpr
  rw [he]
  norm_num

/-- C9 witness: a 180-degree rotation about x with a nonzero translation,
applied to two concrete points. -/
theorem transform_roundtrip_witness :
    (⟨1, 0, 0, 0⟩ : Quat).unit ∧
    transform_pc_to_frame
        (transform_pc_to_frame [⟨1, 2, 3⟩, ⟨-4, 0, 6⟩]
          (trMatrix ⟨1, 0, 0, 0⟩ ⟨5, -2, 7⟩))
        (npLinalgInv (trMatrix ⟨1, 0, 0, 0⟩ ⟨5, -2, 7⟩)) =
      [⟨1, 2, 3⟩, ⟨-4, 0, 6⟩] :=
  ⟨by simp [Quat.unit],
   (transform_roundtrip_within_tolerance ⟨1, 0, 0, 0⟩ ⟨5, -2, 7⟩
     [⟨1, 2, 3⟩, ⟨-4, 0, 6⟩] (by simp [Quat.unit])).1⟩

/-- Projections of the state stored by the camera callback. -/
theorem camera_data_callback_fields (st : ManagerState) (camInfo : CameraInfoMsg)
    (rgb depth : ImageMsg) (pc bgc : Cloud) (tf aru : Option TransformMsg) :
    (camera_data_callback st camInfo rgb depth pc bgc tf aru).pcMsg = some pc ∧
    (camera_data_callback st camInfo rgb depth pc bgc tf aru).newCameraData = true ∧
    (camera_data_callback st camInfo rgb depth pc bgc tf aru).rgbMsg = some rgb ∧
    (camera_data_callback st camInfo rgb depth pc bgc tf aru).backgroundPcMsg =
      (if pc ≠ bgc then some bgc else none) ∧
    (camera_data_callback st camInfo rgb depth pc bgc tf aru).cameraPose =
      (match tf with
        | some tr => ⟨⟨st.rootReferenceFrame, camInfo.header.stamp⟩,
            camInfo.header.frameId, tr⟩
        | none => fallbackCameraPose) := by
  simp only [camera_data_callback]
  split
  · split
    · exact ⟨rfl, rfl, rfl, rfl, rfl⟩
    · exact ⟨rfl, rfl, rfl, rfl, rfl⟩
  · exact ⟨rfl, rfl, rfl, rfl, rfl⟩

/-- For a `grasp` command with a nonempty snapshot whose stored background
cloud (if any) is non-empty, the planner is always sent exactly one request,
whose cloud is the composed cloud of the stored snapshot (whatever the
planner then replies and wherever a concurrent abort lands). -/
theorem user_cmd_grasp_planner_req (env : Env) (st : ManagerState) (pc : Cloud)
    (p0 : ColoredPoint) (ps : List ColoredPoint)
    (hcam : st.newCameraData = true)
    (hpc : st.pcMsg = some pc)
    (hpts : pc.points = p0 :: ps)
    (hbg : emptyBackground st.backgroundPcMsg = false) :
    (user_cmd env st "grasp").plannerReqs ≠ [] ∧
    ∀ preq ∈ (user_cmd env st "grasp").plannerReqs,
      preq.cloud = composedCloud env.complete st.cameraPose pc
        st.backgroundPcMsg p0.rgb := by
  have hvg : validCommand "grasp" = true := by decide
  simp only [user_cmd, hvg, hcam, hpc, hpts, hbg]
  constructor
  · repeat' split
    all_goals simp_all
  · intro preq hpreq
    repeat' split at hpreq
    all_goals simp_all

/-- C5: after a camera callback whose tf lookup succeeded — so the stored
camera pose header carries the root reference frame identifier, per tf2
semantics — and which stored distinct foreground and background clouds, both
non-empty, the cloud of the planner request lists the completed foreground
points first, followed by the background points, and its header keeps the
captured cloud's timestamp with the frame identifier rewritten to the root
frame. -/
theorem composed_cloud_order_and_header (env : Env) (st : ManagerState)
    (camInfo : CameraInfoMsg) (rgb depth : ImageMsg) (pc bg : Cloud)
    (trm : TransformMsg) (aru : Option TransformMsg)
    (p0 : ColoredPoint) (ps : List ColoredPoint)
    (hne : pc ≠ bg)
    (hpts : pc.points = p0 :: ps)
    (hbgpts : bg.points.isEmpty = false) :
    (user_cmd env (camera_data_callback st camInfo rgb depth pc bg (some trm) aru)
        "grasp").plannerReqs ≠ [] ∧
    ∀ preq ∈ (user_cmd env
        (camera_data_callback st camInfo rgb depth pc bg (some trm) aru)
        "grasp").plannerReqs,
      preq.cloud.points =
        completedFgPoints env.complete
            (trMatrix trm.rotation trm.translation) pc.points p0.rgb ++
          backgroundOutPoints (trMatrix trm.rotation trm.translation) bg.points ∧
      preq.cloud.header = ⟨st.rootReferenceFrame, pc.header.stamp⟩ ∧
      preq.cloud.fieldsTag = pc.fieldsTag := by
  obtain ⟨h1, h2, h3, h4, h5⟩ :=
    camera_data_callback_fields st camInfo rgb depth pc bg (some trm) aru
  rw [if_pos hne] at h4
  obtain ⟨hne', hall⟩ := user_cmd_grasp_planner_req env
    (camera_data_callback st camInfo rgb depth pc bg (some trm) aru) pc p0 ps
    h2 h1 hpts (by rw [h4]; exact hbgpts)
  refine ⟨hne', ?_⟩
  intro preq hpreq
  have hc := hall preq hpreq
  rw [hc, h4, h5]
  exact ⟨rfl, rfl, rfl⟩

/-- C5 witness: a concrete callback with distinct foreground and background
clouds followed by a `grasp`. -/
theorem composed_cloud_order_and_header_witness :
    baseCloud ≠ Cloud.mk ⟨"camera_frame", 7⟩ 3 [⟨4, 4, 4, 8⟩] ∧
    baseCloud.points = [⟨1, 2, 3, 9⟩] ∧
    (Cloud.mk ⟨"camera_frame", 7⟩ 3 [⟨4, 4, 4, 8⟩]).points.isEmpty = false ∧
    (user_cmd baseEnv
      (camera_data_callback baseState ⟨⟨"camera_frame", 7⟩, 0⟩ ⟨1⟩ ⟨2⟩ baseCloud
        (Cloud.mk ⟨"camera_frame", 7⟩ 3 [⟨4, 4, 4, 8⟩])
        (some ⟨⟨0, 0, 0, 1⟩, ⟨1, 2, 3⟩⟩) none)
      "grasp").plannerReqs ≠ [] := by
  refine ⟨by decide, by decide, by decide, ?_⟩
  exact (composed_cloud_order_and_header baseEnv baseState ⟨⟨"camera_frame", 7⟩, 0⟩
    ⟨1⟩ ⟨2⟩ baseCloud (Cloud.mk ⟨"camera_frame", 7⟩ 3 [⟨4, 4, 4, 8⟩])
    ⟨⟨0, 0, 0, 1⟩, ⟨1, 2, 3⟩⟩ none ⟨1, 2, 3, 9⟩ [] (by decide) (by decide)
    (by decide)).1

/-- C6: when the foreground and background streams deliver the identical
message, the callback stores `none` for the background cloud, and the cloud of
the subsequent planner request consists of the completed foreground points
only — no background segment is appended. -/
theorem identical_streams_no_background (env : Env) (st : ManagerState)
    (camInfo : CameraInfoMsg) (rgb depth : ImageMsg) (pc : Cloud)
    (tf aru : Option TransformMsg)
    (p0 : ColoredPoint) (ps : List ColoredPoint)
    (hpts : pc.points = p0 :: ps) :
    (camera_data_callback st camInfo rgb depth pc pc tf aru).backgroundPcMsg
      = none ∧
    (user_cmd env (camera_data_callback st camInfo rgb depth pc pc tf aru)
        "grasp").plannerReqs ≠ [] ∧
    ∀ preq ∈ (user_cmd env
        (camera_data_callback st camInfo rgb depth pc pc tf aru)
        "grasp").plannerReqs,
      preq.cloud.points =
        completedFgPoints env.complete
          (trMatrix
            (camera_data_callback st camInfo rgb depth pc pc tf aru).cameraPose.transform.rotation
            (camera_data_callback st camInfo rgb depth pc pc tf aru).cameraPose.transform.translation)
          pc.points p0.rgb := by
  obtain ⟨h1, h2, h3, h4, h5⟩ :=
    camera_data_callback_fields st camInfo rgb depth pc pc tf aru
  rw [if_neg (by simp)] at h4
  obtain ⟨hne', hall⟩ := user_cmd_grasp_planner_req env
    (camera_data_callback st camInfo rgb depth pc pc tf aru) pc p0 ps h2 h1 hpts
    (by rw [h4]; rfl)
  refine ⟨h4, hne', ?_⟩
  intro preq hpreq
  have hc := hall preq hpreq
  rw [hc, h4]
  simp [composedCloud]

/-- C6 witness: foreground and background are the same concrete cloud. -/
theorem identical_streams_no_background_witness :
    baseCloud.points = [⟨1, 2, 3, 9⟩] ∧
    (camera_data_callback baseState ⟨⟨"camera_frame", 7⟩, 0⟩ ⟨1⟩ ⟨2⟩ baseCloud
      baseCloud (some ⟨⟨0, 0, 0, 1⟩, ⟨1, 2, 3⟩⟩) none).backgroundPcMsg = none := by
  refine ⟨by decide, ?_⟩
  exact (identical_streams_no_background baseEnv baseState ⟨⟨"camera_frame", 7⟩, 0⟩
    ⟨1⟩ ⟨2⟩ baseCloud (some ⟨⟨0, 0, 0, 1⟩, ⟨1, 2, 3⟩⟩) none ⟨1, 2, 3, 9⟩ []
    (by decide)).1
